import Mathlib

/-!
Shallow embedding of the chat-responder core of the Akane Discord bot
(`src/bot.py`), together with theorems settling the frozen claims about its
specification.

The embedding covers:
* the configuration constants of `BotConfig` and `OpenAIConfig`;
* the daily quota gate `DatabaseManager.check_usage`, with the `usage_log`
  table modelled as a list of rows (the `UNIQUE(user_id, date)` constraint is
  the `WF` predicate);
* the persona classifier `ExpressionRegulationAnalyzer.detect_regulation_question`,
  including the Python regex patterns it uses, modelled character by character;
* the generation call `AiLogic.call_gpt`, with the OpenAI client as an oracle
  that either returns text or raises;
* the responder `AkaneBot.handle_chat`, whose observable effects are recorded
  as a trace of actions; the `NameError` that the source raises on the
  long-response path (the module never imports `io`) is modelled as an
  exceptional result.
-/

/-! ## Configuration constants (from `BotConfig` / `OpenAIConfig`) -/

namespace BotConfig

def DAILY_MESSAGE_LIMIT : Nat := 100

def REGULATION_ANALYSIS_MAX_TOKENS : Nat := 2000

def NORMAL_CHAT_MAX_TOKENS : Nat := 1500

def GPT_MODEL : String := "gpt-5.1"

def REGULATION_KEYWORDS : List String :=
  ["表現規制", "規制", "検閲", "制限", "禁止", "表現の自由", "言論統制", "弾圧"]

def QUESTION_KEYWORDS : List String :=
  ["妥当", "適切", "正しい", "どう思う", "判断", "評価", "分析"]

end BotConfig

/-! ## String helpers: substring containment (Python `in`), suffix tests -/

/-- Bool-valued test that `needle` occurs as a contiguous sublist of `hay`
(the semantics of Python `needle in hay` on strings). -/
def listContains (needle : List Char) : List Char → Bool
  | [] => needle.isEmpty
  | c :: t => needle.isPrefixOf (c :: t) || listContains needle t

/-- Python `needle in hay` for strings. -/
def strContains (hay needle : String) : Bool := listContains needle.data hay.data

/-- Propositional form of substring containment. -/
def Substr (needle hay : String) : Prop := needle.data <:+: hay.data

theorem listContains_iff (needle hay : List Char) :
    listContains needle hay = true ↔ needle <:+: hay := by
  induction hay with
  | nil => simp [listContains, List.infix_nil, List.isEmpty_iff]
  | cons c t ih =>
    simp [listContains, Bool.or_eq_true, List.isPrefixOf_iff_prefix, ih,
      List.infix_cons_iff]

theorem strContains_iff (hay needle : String) :
    strContains hay needle = true ↔ Substr needle hay :=
  listContains_iff needle.data hay.data

/-- Bool-valued suffix test on strings. -/
def strEndsWith (s suffix : String) : Bool := suffix.data.isSuffixOf s.data

/-! ## The usage store (`usage_log` table) and `check_usage` -/

/-- One row of the `usage_log` table: `(user_id TEXT, date TEXT, count INTEGER)`. -/
structure UsageRow where
  user_id : String
  date : String
  count : Nat
deriving DecidableEq

/-- The `usage_log` table, as its list of rows. -/
abbrev Store := List UsageRow

/-- The `WHERE user_id = ? AND date = ?` predicate. -/
def rowKeyMatches (u d : String) (r : UsageRow) : Bool :=
  r.user_id == u && r.date == d

/-- `SELECT count FROM usage_log WHERE user_id = ? AND date = ?`. -/
def findUsage (s : Store) (u d : String) : Option UsageRow :=
  s.find? (rowKeyMatches u d)

/-- The count stored for `(u, d)` (`res[0] if res else 0` in the source). -/
def usageCount (s : Store) (u d : String) : Nat :=
  match findUsage s u d with
  | some r => r.count
  | none => 0

/-- Effect of `UPDATE usage_log SET count = count + 1 WHERE user_id = ? AND
date = ?` on a single row. -/
def incRow (u d : String) (r : UsageRow) : UsageRow :=
  if rowKeyMatches u d r then { r with count := r.count + 1 } else r

/-- The `UNIQUE(user_id, date)` constraint of the `usage_log` table: no two
rows share a key. -/
def WF (s : Store) : Prop :=
  s.Pairwise (fun a b => ¬(a.user_id = b.user_id ∧ a.date = b.date))

/-- `DatabaseManager.check_usage`, lines 184-194 of `src/bot.py`.  The current
JST day string is passed in as `today`; the result is the returned Bool
together with the table after the call. -/
def check_usage (s : Store) (u today : String) : Bool × Store :=
  let res := findUsage s u today
  let count := match res with | some r => r.count | none => 0
  if BotConfig.DAILY_MESSAGE_LIMIT ≤ count then (false, s)
  else
    match res with
    | some _ => (true, s.map (incRow u today))
    | none => (true, s ++ [⟨u, today, 1⟩])

/-- `n` successive `check_usage` calls for the same user and day, starting
from the empty table. -/
def iterUsage (u d : String) : Nat → Store
  | 0 => []
  | n + 1 => (check_usage (iterUsage u d n) u d).2

/-! ## The JST day key: `datetime.now(JST).strftime('%Y-%m-%d')` -/

/-- The ASCII digit character for `n % 10`. -/
def digitChar (n : Nat) : Char := Char.ofNat (48 + n % 10)

/-- Two-digit zero-padded decimal, as produced by `%m` / `%d`. -/
def pad2 (n : Nat) : String := String.mk [digitChar (n / 10), digitChar n]

/-- Four-digit zero-padded decimal, as produced by `%Y` for years up to 9999. -/
def pad4 (n : Nat) : String :=
  String.mk [digitChar (n / 1000), digitChar (n / 100), digitChar (n / 10), digitChar n]

/-- The day key `strftime('%Y-%m-%d')` for year `y`, month `m`, day `d`. -/
def formatDay (y m d : Nat) : String := pad4 y ++ "-" ++ pad2 m ++ "-" ++ pad2 d

/-! ## Persona classifier (`ExpressionRegulationAnalyzer`) -/

/-- Python `re.search(r'pat$', m)` sees `$` match at the end of the string or
just before one trailing newline; this strips that one trailing newline. -/
def dollarCore (m : String) : String :=
  if strEndsWith m "\n" then String.mk m.data.dropLast else m

/-- The part of the text that an unanchored `.`-only pattern can span when the
pattern is anchored at `^` (Python `.` does not match a newline). -/
def firstLine (m : String) : String :=
  String.mk (m.data.takeWhile (fun c => c != '\n'))

/-- The five interrogative regex patterns of `detect_regulation_question`:
`.*？$`, `.*\?$`, `^.*ですか.*`, `^.*やろか.*`, `^.*かな.*`, each tried with
`re.search`.  The first two hold exactly when the text (with one trailing
newline ignored) ends in the question mark; the last three hold exactly when
the marker occurs in the first line. -/
def question_patterns_match (m : String) : Bool :=
  strEndsWith (dollarCore m) "？" || strEndsWith (dollarCore m) "?" ||
  strContains (firstLine m) "ですか" || strContains (firstLine m) "やろか" ||
  strContains (firstLine m) "かな"

/-- `ExpressionRegulationAnalyzer.detect_regulation_question`, lines 269-273
of `src/bot.py`.  `true` means the message is classified `ANALYSIS`. -/
def detect_regulation_question (message : String) : Bool :=
  let has_regulation := BotConfig.REGULATION_KEYWORDS.any (fun k => strContains message k)
  let has_question := BotConfig.QUESTION_KEYWORDS.any (fun k => strContains message k)
  has_regulation && (has_question || question_patterns_match message)

/-! ## The generation call (`AiLogic.call_gpt`) -/

/-- The keyword arguments assembled for `client.chat.completions.create`.
`none` means the key is absent from the `params` dict. -/
structure GptParams where
  model : String
  system_prompt : String
  user_message : String
  max_tokens : Option Nat
  max_completion_tokens : Option Nat
  temperature : Option ℚ
  reasoning_effort : Option String
deriving DecidableEq

/-- The source's reasoning-model test: `"gpt-5" in model or "o1" in model`. -/
def is_reasoning (model : String) : Bool :=
  strContains model "gpt-5" || strContains model "o1"

/-- The parameter dict built by `AiLogic.call_gpt`, lines 287-295 of
`src/bot.py`: a reasoning model gets `max_completion_tokens` and
`reasoning_effort = "medium"`, a non-reasoning model gets `max_tokens` and
`temperature = 0.7`. -/
def buildParams (model system_prompt user_message : String) (mt : Nat) : GptParams :=
  if is_reasoning model then
    { model := model, system_prompt := system_prompt, user_message := user_message,
      max_tokens := none, max_completion_tokens := some mt,
      temperature := none, reasoning_effort := some "medium" }
  else
    { model := model, system_prompt := system_prompt, user_message := user_message,
      max_tokens := some mt, max_completion_tokens := none,
      temperature := some (7 / 10 : ℚ), reasoning_effort := none }

/-- Outcome of one invocation of `client.chat.completions.create`: the
returned message content, or an exception. -/
inductive ProviderResult
  | ok (text : String)
  | exn
deriving DecidableEq

/-- `AiLogic.call_gpt`, lines 285-301 of `src/bot.py`.  The provider oracle is
indexed by the invocation number; the source invokes the provider exactly once
(invocation `0`) inside a single `try`/`except` with no retry loop, and the
`except` branch returns the fixed apology string. -/
def call_gpt (provider : Nat → GptParams → ProviderResult)
    (system_prompt user_message : String) (mt : Nat) : String :=
  let params := buildParams BotConfig.GPT_MODEL system_prompt user_message mt
  match provider 0 params with
  | ProviderResult.ok t => t
  | ProviderResult.exn => "APIエラーが発生しました。"

/-- Modelled from the spec: the retry policy the specification describes for
the generation call (absent from `src/bot.py`) — up to 3 attempts on any
exception, returning the fixed apology string only after all 3 attempts fail.
Used solely to compare the source's behaviour against the spec's words. -/
def call_gpt_specRetry (provider : Nat → GptParams → ProviderResult)
    (system_prompt user_message : String) (mt : Nat) : String :=
  let params := buildParams BotConfig.GPT_MODEL system_prompt user_message mt
  match provider 0 params with
  | ProviderResult.ok t => t
  | ProviderResult.exn =>
    match provider 1 params with
    | ProviderResult.ok t => t
    | ProviderResult.exn =>
      match provider 2 params with
      | ProviderResult.ok t => t
      | ProviderResult.exn => "APIエラーが発生しました。"

/-! ## Mention stripping: `re.sub(r'<@!?\d+>', '', message.content).strip()` -/

/-- After the leading digit of a mention token: consume further digits until
the closing angle bracket. -/
def afterDigits : List Char → Option (List Char)
  | [] => none
  | c :: rest =>
    if c = '>' then some rest
    else if c.isDigit then afterDigits rest
    else none

/-- Consume `\d+>`: at least one digit, then the closing angle bracket. -/
def matchDigits : List Char → Option (List Char)
  | [] => none
  | c :: rest => if c.isDigit then afterDigits rest else none

/-- Try to match the regex `<@!?\d+>` at the head of the list; on success
return the remainder. -/
def matchMention : List Char → Option (List Char)
  | '<' :: '@' :: '!' :: rest => matchDigits rest
  | '<' :: '@' :: rest => matchDigits rest
  | _ => none

/-- One step of `re.sub` scanning, with fuel: at each position, if the mention
pattern matches, drop it and continue after the match, else keep the character
and move on.  A fuel of the list's length suffices since every step consumes
at least one character. -/
def dropMentionsFuel : Nat → List Char → List Char
  | _, [] => []
  | 0, l => l
  | fuel + 1, c :: t =>
    match matchMention (c :: t) with
    | some rest => dropMentionsFuel fuel rest
    | none => c :: dropMentionsFuel fuel t

/-- `re.sub(r'<@!?\d+>', '', content)`. -/
def dropMentions (content : String) : String :=
  String.mk (dropMentionsFuel content.data.length content.data)

/-- Whitespace as stripped by Python `str.strip()` (ASCII whitespace plus the
common Unicode spaces that can occur in chat text). -/
def isPySpace (c : Char) : Bool :=
  c = ' ' || c = '\t' || c = '\n' || c = '\r' || c = '\x0b' || c = '\x0c' ||
  c = ' ' || c = '　'

/-- Python `str.strip()`. -/
def pyStrip (s : String) : String :=
  String.mk (((s.data.dropWhile isPySpace).reverse.dropWhile isPySpace).reverse)

/-- `content = re.sub(r'<@!?\d+>', '', message.content).strip()`, line 423 of
`src/bot.py`. -/
def stripContent (content : String) : String := pyStrip (dropMentions content)

/-! ## The responder (`AkaneBot.handle_chat`) -/

/-- The observable outbound effects of one `handle_chat` run. -/
inductive BotAction
  | genCall (system_prompt user_message : String) (mt : Nat)
  | reply (text : String)
  | replyFile (text : String) (file_content : String)
deriving DecidableEq

/-- A Python exception escaping the handler. -/
inductive PyError
  | nameError (name : String)
deriving DecidableEq

/-- The fixed casual persona prompt built in `handle_chat`, lines 429-438 of
`src/bot.py` (adjacent string literals concatenated). -/
def akanePrompt : String :=
  "あなたは「表自派茜（ひょうじは あかね）」という元気な関西弁の女子高生AIです。\n" ++
  "以下のルールを厳守してください：\n" ++
  "1. 日本語で、フレンドリーな関西弁で話すこと。\n" ++
  "2. 「表現の自由」「規制」「検閲」などの話題が出た場合は、スイッチが入ったようにテンションを上げて熱く語ること。\n" ++
  "3. **回答は必ず1000文字以内に収めること**。\n" ++
  "4. もし1000文字を超えそうな場合、または話し足りない場合は、無理にまとめず途中で切り上げ、" ++
  "「まだ話し足りないけど、字数の制限があるからいったんここらで切り上げるわ。気になることがあったらまた声をかけてな！」" ++
  "という定型文を最後に追加して終了すること。"

/-- `AkaneBot.handle_chat`, lines 422-444 of `src/bot.py`.  `author_id` and
`today` stand for `str(message.author.id)` and the current JST day key;
the store is the `usage_log` table.  On success the result is the list of
outbound actions and the new table; the branch for responses longer than 1900
characters evaluates `io.BytesIO`, and since the module never imports `io`
this raises `NameError('io')`, which nothing in `handle_chat` catches. -/
def handle_chat (provider : Nat → GptParams → ProviderResult)
    (author_id today content : String) (s : Store) :
    Except PyError (List BotAction × Store) :=
  let c := stripContent content
  if c = "" then Except.ok ([], s)
  else
    let r := check_usage s author_id today
    if r.1 = false then Except.ok ([BotAction.reply "今日の会話回数は終わりや。"], r.2)
    else
      let resp := call_gpt provider akanePrompt c BotConfig.NORMAL_CHAT_MAX_TOKENS
      if 1900 < resp.length then Except.error (PyError.nameError "io")
      else
        Except.ok
          ([BotAction.genCall akanePrompt c BotConfig.NORMAL_CHAT_MAX_TOKENS,
            BotAction.reply resp], r.2)

/-! ## Helper lemmas about the usage store -/

theorem rowKeyMatches_iff (u d : String) (r : UsageRow) :
    rowKeyMatches u d r = true ↔ r.user_id = u ∧ r.date = d := by
  simp [rowKeyMatches]

theorem findUsage_cons (a : UsageRow) (t : Store) (u d : String) :
    findUsage (a :: t) u d = if rowKeyMatches u d a then some a else findUsage t u d := by
  cases h : rowKeyMatches u d a with
  | true => simp [findUsage, List.find?_cons_of_pos, h]
  | false => simp [findUsage, List.find?_cons_of_neg, h]

theorem incRow_user_id (u d : String) (r : UsageRow) :
    (incRow u d r).user_id = r.user_id := by
  unfold incRow; split <;> rfl

theorem incRow_date (u d : String) (r : UsageRow) :
    (incRow u d r).date = r.date := by
  unfold incRow; split <;> rfl

theorem rowKeyMatches_incRow (u d u' d' : String) (r : UsageRow) :
    rowKeyMatches u' d' (incRow u d r) = rowKeyMatches u' d' r := by
  unfold rowKeyMatches
  rw [incRow_user_id, incRow_date]

theorem findUsage_map_incRow (s : Store) (u d u' d' : String) :
    findUsage (s.map (incRow u d)) u' d' = (findUsage s u' d').map (incRow u d) := by
  induction s with
  | nil => rfl
  | cons a t ih =>
    rw [List.map_cons, findUsage_cons, findUsage_cons, rowKeyMatches_incRow]
    cases h : rowKeyMatches u' d' a <;> simp [ih]

theorem findUsage_append (s : Store) (r0 : UsageRow) (u d : String) :
    findUsage (s ++ [r0]) u d =
      match findUsage s u d with
      | some r => some r
      | none => if rowKeyMatches u d r0 then some r0 else none := by
  induction s with
  | nil =>
    rw [List.nil_append, findUsage_cons]
    rfl
  | cons a t ih =>
    rw [List.cons_append, findUsage_cons, findUsage_cons]
    cases h : rowKeyMatches u d a <;> simp [ih]

theorem usageCount_eq_some (s : Store) (u d : String) (r : UsageRow)
    (hf : findUsage s u d = some r) : usageCount s u d = r.count := by
  unfold usageCount
  rw [hf]

theorem usageCount_eq_none (s : Store) (u d : String)
    (hf : findUsage s u d = none) : usageCount s u d = 0 := by
  unfold usageCount
  rw [hf]

theorem check_usage_reject (s : Store) (u d : String)
    (h : BotConfig.DAILY_MESSAGE_LIMIT ≤ usageCount s u d) :
    check_usage s u d = (false, s) := by
  cases hf : findUsage s u d with
  | none =>
    rw [usageCount_eq_none s u d hf] at h
    exact absurd h (by decide)
  | some r =>
    rw [usageCount_eq_some s u d r hf] at h
    simp only [check_usage, hf]
    rw [if_pos h]

theorem check_usage_accept_some (s : Store) (u d : String) (r : UsageRow)
    (hf : findUsage s u d = some r) (hc : r.count < BotConfig.DAILY_MESSAGE_LIMIT) :
    check_usage s u d = (true, s.map (incRow u d)) := by
  simp only [check_usage, hf]
  rw [if_neg (Nat.not_le.mpr hc)]

theorem check_usage_accept_none (s : Store) (u d : String)
    (hf : findUsage s u d = none) :
    check_usage s u d = (true, s ++ [⟨u, d, 1⟩]) := by
  simp only [check_usage, hf]
  rw [if_neg (by decide)]

theorem usageCount_map_incRow_self (s : Store) (u d : String) :
    usageCount (s.map (incRow u d)) u d =
      match findUsage s u d with
      | some r => r.count + 1
      | none => 0 := by
  unfold usageCount
  rw [findUsage_map_incRow]
  cases hf : findUsage s u d with
  | none => rfl
  | some r =>
    have hp : rowKeyMatches u d r = true := List.find?_some hf
    simp [incRow, hp]

theorem usageCount_map_incRow_ne (s : Store) (u d u' d' : String)
    (h : ¬(u' = u ∧ d' = d)) :
    usageCount (s.map (incRow u d)) u' d' = usageCount s u' d' := by
  unfold usageCount
  rw [findUsage_map_incRow]
  cases hf : findUsage s u' d' with
  | none => rfl
  | some r =>
    have hp := (rowKeyMatches_iff u' d' r).mp (List.find?_some hf)
    have hq : rowKeyMatches u d r = false := by
      apply Bool.eq_false_iff.mpr
      intro hc
      obtain ⟨hc1, hc2⟩ := (rowKeyMatches_iff u d r).mp hc
      exact h ⟨by rw [← hp.1, hc1], by rw [← hp.2, hc2]⟩
    simp [incRow, hq]

theorem usageCount_append_ne (s : Store) (r0 : UsageRow) (u d : String)
    (h : rowKeyMatches u d r0 = false) :
    usageCount (s ++ [r0]) u d = usageCount s u d := by
  unfold usageCount
  rw [findUsage_append]
  cases hf : findUsage s u d <;> simp [h]

theorem WF_unique (s : Store) (hwf : WF s) (u d : String) (r r' : UsageRow)
    (hr : findUsage s u d = some r) (hr' : r' ∈ s)
    (hp : rowKeyMatches u d r' = true) : r' = r := by
  by_cases he : r' = r
  · exact he
  · exfalso
    have hrmem : r ∈ s := List.mem_of_find?_eq_some hr
    have h1 := (rowKeyMatches_iff u d r).mp (List.find?_some hr)
    have h2 := (rowKeyMatches_iff u d r').mp hp
    have hsym : Symmetric (fun a b : UsageRow => ¬(a.user_id = b.user_id ∧ a.date = b.date)) := by
      intro a b hab hba
      exact hab ⟨hba.1.symm, hba.2.symm⟩
    exact (hwf.forall hsym) hr' hrmem he ⟨by rw [h2.1, h1.1], by rw [h2.2, h1.2]⟩

theorem iterUsage_eq (u d : String) :
    ∀ n, 1 ≤ n → n ≤ 100 → iterUsage u d n = [⟨u, d, n⟩] := by
  intro n
  induction n with
  | zero => intro h _; omega
  | succ k ih =>
    intro _ h2
    show (check_usage (iterUsage u d k) u d).2 = _
    by_cases hk : k = 0
    · subst hk
      rw [show iterUsage u d 0 = [] from rfl, check_usage_accept_none [] u d rfl]
      rfl
    · rw [ih (by omega) (by omega)]
      have hf : findUsage [⟨u, d, k⟩] u d = some ⟨u, d, k⟩ := by
        rw [findUsage_cons]
        simp [rowKeyMatches]
      rw [check_usage_accept_some _ u d ⟨u, d, k⟩ hf
        (by simp only [BotConfig.DAILY_MESSAGE_LIMIT]; omega)]
      simp [incRow, rowKeyMatches]

/-! ## Injectivity of the `%Y-%m-%d` day key -/

theorem digitChar_injAux :
    ∀ x, x < 10 → ∀ y, y < 10 → digitChar x = digitChar y → x = y := by decide

theorem digitChar_inj {a b : Nat} (h : digitChar a = digitChar b) :
    a % 10 = b % 10 := by
  have ha : a % 10 < 10 := by omega
  have hb : b % 10 < 10 := by omega
  apply digitChar_injAux _ ha _ hb
  unfold digitChar at h ⊢
  have ea : a % 10 % 10 = a % 10 := by omega
  have eb : b % 10 % 10 = b % 10 := by omega
  rw [ea, eb]
  exact h

theorem formatDay_data (y m d : Nat) :
    (formatDay y m d).data =
      [digitChar (y / 1000), digitChar (y / 100), digitChar (y / 10), digitChar y, '-',
       digitChar (m / 10), digitChar m, '-', digitChar (d / 10), digitChar d] := rfl

theorem formatDay_inj {y1 m1 d1 y2 m2 d2 : Nat}
    (hy1 : y1 ≤ 9999) (hy2 : y2 ≤ 9999) (hm1 : m1 ≤ 99) (hm2 : m2 ≤ 99)
    (hd1 : d1 ≤ 99) (hd2 : d2 ≤ 99)
    (h : formatDay y1 m1 d1 = formatDay y2 m2 d2) :
    y1 = y2 ∧ m1 = m2 ∧ d1 = d2 := by
  have hdata : (formatDay y1 m1 d1).data = (formatDay y2 m2 d2).data := by rw [h]
  rw [formatDay_data, formatDay_data] at hdata
  simp only [List.cons.injEq, and_true, true_and] at hdata
  obtain ⟨e1, e2, e3, e4, e5, e6, e7, e8⟩ := hdata
  have g1 := digitChar_inj e1
  have g2 := digitChar_inj e2
  have g3 := digitChar_inj e3
  have g4 := digitChar_inj e4
  have g5 := digitChar_inj e5
  have g6 := digitChar_inj e6
  have g7 := digitChar_inj e7
  have g8 := digitChar_inj e8
  refine ⟨?_, ?_, ?_⟩ <;> omega

/-! ## Claim theorems -/

/-- C1: with the daily limit constant 100, if the stored count for
`(user, day)` is below 100, `check_usage` accepts and increments that count by
exactly 1 (a missing record is created with count 1); if the count is at
least 100 it rejects, leaves the table unchanged, and `handle_chat` then
replies with the fixed quota-exhausted message only, making no generation
call; consequently the 100th message of a day is accepted and the 101st is
rejected. -/
theorem C1_quota_gate (s : Store) (u d content : String)
    (provider : Nat → GptParams → ProviderResult) :
    (usageCount s u d < BotConfig.DAILY_MESSAGE_LIMIT →
      (check_usage s u d).1 = true ∧
      usageCount (check_usage s u d).2 u d = usageCount s u d + 1) ∧
    (BotConfig.DAILY_MESSAGE_LIMIT ≤ usageCount s u d →
      (check_usage s u d).1 = false ∧ (check_usage s u d).2 = s ∧
      (stripContent content ≠ "" →
        handle_chat provider u d content s =
          Except.ok ([BotAction.reply "今日の会話回数は終わりや。"], s))) ∧
    (check_usage (iterUsage u d 99) u d).1 = true ∧
    (check_usage (iterUsage u d 100) u d).1 = false := by
  refine ⟨?_, ?_, ?_, ?_⟩
  · intro hlt
    cases hf : findUsage s u d with
    | none =>
      rw [usageCount_eq_none s u d hf, check_usage_accept_none s u d hf]
      refine ⟨rfl, ?_⟩
      unfold usageCount
      rw [findUsage_append, hf]
      simp [rowKeyMatches]
    | some r =>
      rw [usageCount_eq_some s u d r hf] at hlt ⊢
      rw [check_usage_accept_some s u d r hf hlt]
      refine ⟨rfl, ?_⟩
      rw [usageCount_map_incRow_self, hf]
  · intro hge
    have hcu := check_usage_reject s u d hge
    refine ⟨by rw [hcu], by rw [hcu], ?_⟩
    intro hc
    simp only [handle_chat, hcu]
    rw [if_neg hc]
    rfl
  · rw [iterUsage_eq u d 99 (by omega) (by omega)]
    have hf : findUsage [⟨u, d, 99⟩] u d = some ⟨u, d, 99⟩ := by
      rw [findUsage_cons]
      simp [rowKeyMatches]
    rw [check_usage_accept_some _ u d ⟨u, d, 99⟩ hf
      (by show (99 : Nat) < BotConfig.DAILY_MESSAGE_LIMIT; decide)]
  · rw [iterUsage_eq u d 100 (by omega) (by omega)]
    have hf : findUsage [⟨u, d, 100⟩] u d = some ⟨u, d, 100⟩ := by
      rw [findUsage_cons]
      simp [rowKeyMatches]
    rw [check_usage_reject _ u d (by
      rw [usageCount_eq_some _ u d _ hf]
      show BotConfig.DAILY_MESSAGE_LIMIT ≤ (100 : Nat)
      decide)]

/-- C1 witness: the quota gate evaluated at a concrete fresh user and day. -/
theorem C1_quota_gate_witness :
    usageCount [] "alice" "2025-06-01" < BotConfig.DAILY_MESSAGE_LIMIT ∧
    (check_usage [] "alice" "2025-06-01").1 = true ∧
    usageCount (check_usage [] "alice" "2025-06-01").2 "alice" "2025-06-01" =
      usageCount [] "alice" "2025-06-01" + 1 := by
  have h := (C1_quota_gate [] "alice" "2025-06-01" "hi"
    (fun _ _ => ProviderResult.exn)).1 (by decide)
  exact ⟨by decide, h.1, h.2⟩

/-- C2: the classifier returns `ANALYSIS` exactly when some regulation keyword
occurs as a substring and either some question keyword occurs as a substring
or one of the interrogative patterns matches; 表現規制は妥当ですか？ is
classified `ANALYSIS` and 今日の天気はどう？ is classified `CASUAL`. -/
theorem C2_classifier :
    (∀ m : String, detect_regulation_question m = true ↔
      ((∃ k ∈ BotConfig.REGULATION_KEYWORDS, Substr k m) ∧
       ((∃ k ∈ BotConfig.QUESTION_KEYWORDS, Substr k m) ∨
        question_patterns_match m = true))) ∧
    detect_regulation_question "表現規制は妥当ですか？" = true ∧
    detect_regulation_question "今日の天気はどう？" = false := by
  refine ⟨?_, by decide, by decide⟩
  intro m
  simp only [detect_regulation_question, Bool.and_eq_true, Bool.or_eq_true,
    List.any_eq_true, strContains_iff]

/-- C4: the usage record is keyed by the `YYYY-MM-DD` day string, distinct
calendar days give distinct keys, and the first `check_usage` call under a
fresh day key accepts regardless of what is stored under any other day key,
which stays unchanged. -/
theorem C4_day_rollover (s : Store) (u : String) (y1 m1 d1 y2 m2 d2 : Nat)
    (hy1 : y1 ≤ 9999) (hy2 : y2 ≤ 9999) (hm1 : m1 ≤ 99) (hm2 : m2 ≤ 99)
    (hd1 : d1 ≤ 99) (hd2 : d2 ≤ 99)
    (hne : ¬(y1 = y2 ∧ m1 = m2 ∧ d1 = d2))
    (hfresh : findUsage s u (formatDay y2 m2 d2) = none) :
    (check_usage s u (formatDay y2 m2 d2)).1 = true ∧
    usageCount (check_usage s u (formatDay y2 m2 d2)).2 u (formatDay y1 m1 d1) =
      usageCount s u (formatDay y1 m1 d1) ∧
    formatDay y1 m1 d1 ≠ formatDay y2 m2 d2 := by
  have hkey : formatDay y1 m1 d1 ≠ formatDay y2 m2 d2 := fun h =>
    hne (formatDay_inj hy1 hy2 hm1 hm2 hd1 hd2 h)
  rw [check_usage_accept_none s u _ hfresh]
  refine ⟨rfl, ?_, hkey⟩
  apply usageCount_append_ne
  apply Bool.eq_false_iff.mpr
  intro hc
  obtain ⟨h1, h2⟩ := (rowKeyMatches_iff _ _ _).mp hc
  exact hkey h2.symm

/-- C4 witness: a user exhausted on 2025-06-01 is accepted again on
2025-06-02 and the old record is untouched. -/
theorem C4_day_rollover_witness :
    (check_usage [⟨"alice", formatDay 2025 6 1, 100⟩] "alice" (formatDay 2025 6 2)).1 = true ∧
    usageCount (check_usage [⟨"alice", formatDay 2025 6 1, 100⟩] "alice"
        (formatDay 2025 6 2)).2 "alice" (formatDay 2025 6 1) =
      usageCount [⟨"alice", formatDay 2025 6 1, 100⟩] "alice" (formatDay 2025 6 1) ∧
    formatDay 2025 6 1 ≠ formatDay 2025 6 2 :=
  C4_day_rollover [⟨"alice", formatDay 2025 6 1, 100⟩] "alice" 2025 6 1 2025 6 2
    (by decide) (by decide) (by decide) (by decide) (by decide) (by decide)
    (by decide) (by decide)

/-- C5: a message that is empty after removing mention tokens and stripping
whitespace makes `handle_chat` return with no outbound action and the usage
table unchanged. -/
theorem C5_empty_strip (provider : Nat → GptParams → ProviderResult)
    (author_id today content : String) (s : Store)
    (h : stripContent content = "") :
    handle_chat provider author_id today content s = Except.ok ([], s) := by
  simp only [handle_chat, h]
  rfl

/-- C5 witness: a message consisting solely of the bot's mention. -/
theorem C5_empty_strip_witness :
    stripContent "<@123456789012345678>" = "" ∧
    handle_chat (fun _ _ => ProviderResult.exn) "u" "2025-06-01"
      "<@123456789012345678>" [] = Except.ok ([], []) :=
  ⟨by decide, C5_empty_strip (fun _ _ => ProviderResult.exn) "u" "2025-06-01"
    "<@123456789012345678>" [] (by decide)⟩

/-- C10: under the `UNIQUE(user_id, date)` constraint, every `check_usage`
call changes the stored count of the queried key by 0 or exactly +1, leaves
every other key unchanged, preserves the bound `count ≤ 100`, and preserves
the uniqueness constraint itself. -/
theorem C10_usage_invariant (s : Store) (u d : String) (hwf : WF s) :
    (usageCount (check_usage s u d).2 u d = usageCount s u d ∨
     usageCount (check_usage s u d).2 u d = usageCount s u d + 1) ∧
    (∀ u' d' : String, ¬(u' = u ∧ d' = d) →
      usageCount (check_usage s u d).2 u' d' = usageCount s u' d') ∧
    ((∀ r ∈ s, r.count ≤ BotConfig.DAILY_MESSAGE_LIMIT) →
      ∀ r ∈ (check_usage s u d).2, r.count ≤ BotConfig.DAILY_MESSAGE_LIMIT) ∧
    WF (check_usage s u d).2 := by
  rcases Nat.lt_or_ge (usageCount s u d) BotConfig.DAILY_MESSAGE_LIMIT with hlt | hge
  · cases hf : findUsage s u d with
    | none =>
      rw [check_usage_accept_none s u d hf]
      refine ⟨?_, ?_, ?_, ?_⟩
      · right
        rw [usageCount_eq_none s u d hf]
        unfold usageCount
        rw [findUsage_append, hf]
        simp [rowKeyMatches]
      · intro u' d' hne
        apply usageCount_append_ne
        apply Bool.eq_false_iff.mpr
        intro hc
        obtain ⟨h1, h2⟩ := (rowKeyMatches_iff u' d' _).mp hc
        exact hne ⟨h1.symm, h2.symm⟩
      · intro hb r hr
        rcases List.mem_append.mp hr with hs | hnew
        · exact hb r hs
        · rw [List.mem_singleton.mp hnew]
          show (1 : Nat) ≤ BotConfig.DAILY_MESSAGE_LIMIT
          decide
      · unfold WF at hwf ⊢
        rw [List.pairwise_append]
        refine ⟨hwf, List.pairwise_singleton _ _, ?_⟩
        intro a ha b hb hab
        have hmiss := List.find?_eq_none.mp hf a ha
        apply hmiss
        rw [rowKeyMatches_iff]
        rw [List.mem_singleton.mp hb] at hab
        exact hab
    | some r =>
      have hc : r.count < BotConfig.DAILY_MESSAGE_LIMIT := by
        rw [usageCount_eq_some s u d r hf] at hlt
        exact hlt
      rw [check_usage_accept_some s u d r hf hc]
      refine ⟨?_, ?_, ?_, ?_⟩
      · right
        rw [usageCount_map_incRow_self, hf, usageCount_eq_some s u d r hf]
      · intro u' d' hne
        exact usageCount_map_incRow_ne s u d u' d' hne
      · intro hb x hx
        obtain ⟨x0, hx0, hx0e⟩ := List.mem_map.mp hx
        subst hx0e
        by_cases hp : rowKeyMatches u d x0 = true
        · have hx0r : x0 = r := WF_unique s hwf u d r x0 hf hx0 hp
          subst hx0r
          simp only [incRow, hp, if_true]
          omega
        · have hp' : rowKeyMatches u d x0 = false := by
            cases hq : rowKeyMatches u d x0
            · rfl
            · exact absurd hq hp
          simp only [incRow, hp', if_false]
          exact hb x0 hx0
      · unfold WF at hwf ⊢
        rw [List.pairwise_map]
        apply hwf.imp
        intro a b hab
        rw [incRow_user_id, incRow_date, incRow_user_id, incRow_date]
        exact hab
  · rw [check_usage_reject s u d hge]
    exact ⟨Or.inl rfl, fun u' d' _ => rfl, fun h => h, hwf⟩

/-- C10 witness: one accepted call on a concrete well-formed table. -/
theorem C10_usage_invariant_witness :
    (usageCount (check_usage [⟨"bob", "2025-06-01", 5⟩] "bob" "2025-06-01").2
        "bob" "2025-06-01" = usageCount [⟨"bob", "2025-06-01", 5⟩] "bob" "2025-06-01" ∨
     usageCount (check_usage [⟨"bob", "2025-06-01", 5⟩] "bob" "2025-06-01").2
        "bob" "2025-06-01" = usageCount [⟨"bob", "2025-06-01", 5⟩] "bob" "2025-06-01" + 1) ∧
    WF (check_usage [⟨"bob", "2025-06-01", 5⟩] "bob" "2025-06-01").2 := by
  have h := C10_usage_invariant [⟨"bob", "2025-06-01", 5⟩] "bob" "2025-06-01"
    (List.pairwise_singleton _ _)
  exact ⟨h.1, h.2.2.2⟩

/-- A provider that raises on the first invocation and would succeed on any
later one. -/
def provFailThenOk : Nat → GptParams → ProviderResult :=
  fun n _ => if n = 0 then ProviderResult.exn else ProviderResult.ok "hello"

/-- C3 counterexample: the source makes no retry.  On a provider whose first
invocation raises and whose second would return "hello", `call_gpt` returns
the apology string, while the 3-attempt retry policy the claim describes
would return "hello". -/
theorem C3_no_retry_counterexample :
    call_gpt provFailThenOk "sys" "user" 500 = "APIエラーが発生しました。" ∧
    call_gpt_specRetry provFailThenOk "sys" "user" 500 = "hello" :=
  ⟨rfl, rfl⟩

/-- C3 amended: `call_gpt` makes exactly one provider attempt, with no retry
and no backoff — its result depends only on invocation 0 — and if that single
attempt raises, it returns the fixed apology string; no exception escapes. -/
theorem C3_single_attempt (p q : Nat → GptParams → ProviderResult)
    (system_prompt user_message : String) (mt : Nat)
    (hagree : ∀ params, p 0 params = q 0 params)
    (hfail : p 0 (buildParams BotConfig.GPT_MODEL system_prompt user_message mt) =
      ProviderResult.exn) :
    call_gpt p system_prompt user_message mt = "APIエラーが発生しました。" ∧
    call_gpt p system_prompt user_message mt = call_gpt q system_prompt user_message mt := by
  constructor
  · simp only [call_gpt]
    rw [hfail]
  · simp only [call_gpt]
    rw [← hagree]

/-- C3 witness: the single-attempt behaviour at a concrete failing provider. -/
theorem C3_single_attempt_witness :
    call_gpt provFailThenOk "sys" "user" 500 = "APIエラーが発生しました。" ∧
    call_gpt provFailThenOk "sys" "user" 500 =
      call_gpt (fun _ _ => ProviderResult.exn) "sys" "user" 500 :=
  C3_single_attempt provFailThenOk (fun _ _ => ProviderResult.exn) "sys" "user" 500
    (fun _ => rfl) rfl

/-- C6: exactly one parameter shape is constructed, selected by the
reasoning-model test (the identifier contains "gpt-5" or "o1"): a reasoning
model gets `reasoning_effort` and `max_completion_tokens` and no
`temperature` or `max_tokens`; a non-reasoning model gets `temperature` and
`max_tokens` and no `reasoning_effort` or `max_completion_tokens`. -/
theorem C6_param_shape (model system_prompt user_message : String) (mt : Nat) :
    (is_reasoning model = true →
      (buildParams model system_prompt user_message mt).reasoning_effort = some "medium" ∧
      (buildParams model system_prompt user_message mt).max_completion_tokens = some mt ∧
      (buildParams model system_prompt user_message mt).temperature = none ∧
      (buildParams model system_prompt user_message mt).max_tokens = none) ∧
    (is_reasoning model = false →
      (buildParams model system_prompt user_message mt).temperature = some (7 / 10 : ℚ) ∧
      (buildParams model system_prompt user_message mt).max_tokens = some mt ∧
      (buildParams model system_prompt user_message mt).reasoning_effort = none ∧
      (buildParams model system_prompt user_message mt).max_completion_tokens = none) ∧
    (is_reasoning model = true ↔ (Substr "gpt-5" model ∨ Substr "o1" model)) := by
  refine ⟨?_, ?_, ?_⟩
  · intro h
    simp [buildParams, h]
  · intro h
    simp [buildParams, h]
  · simp only [is_reasoning, Bool.or_eq_true, strContains_iff]

/-- C6 witness: the configured model "gpt-5.1" is a reasoning model and gets
the reasoning-shaped parameters. -/
theorem C6_param_shape_witness :
    is_reasoning "gpt-5.1" = true ∧
    (buildParams "gpt-5.1" "sys" "hi" 1500).reasoning_effort = some "medium" ∧
    (buildParams "gpt-5.1" "sys" "hi" 1500).max_completion_tokens = some 1500 ∧
    (buildParams "gpt-5.1" "sys" "hi" 1500).temperature = none ∧
    (buildParams "gpt-5.1" "sys" "hi" 1500).max_tokens = none := by
  have h := (C6_param_shape "gpt-5.1" "sys" "hi" 1500).1 (by decide)
  exact ⟨by decide, h.1, h.2.1, h.2.2.1, h.2.2.2⟩

/-- A provider that always returns a short response. -/
def provOkShort : Nat → GptParams → ProviderResult :=
  fun _ _ => ProviderResult.ok "ok!"

/-- C7 counterexample: the message 表現規制は妥当ですか？ is classified
`ANALYSIS` by the classifier, yet `handle_chat` submits it with the budget
`NORMAL_CHAT_MAX_TOKENS = 1500`, not `REGULATION_ANALYSIS_MAX_TOKENS = 2000`;
the responder never branches on the classification. -/
theorem C7_analysis_budget_counterexample :
    detect_regulation_question (stripContent "表現規制は妥当ですか？") = true ∧
    handle_chat provOkShort "u" "2025-06-01" "表現規制は妥当ですか？" [] =
      Except.ok ([BotAction.genCall akanePrompt "表現規制は妥当ですか？" 1500,
        BotAction.reply "ok!"], [⟨"u", "2025-06-01", 1⟩]) ∧
    (1500 : Nat) ≠ BotConfig.REGULATION_ANALYSIS_MAX_TOKENS := by
  refine ⟨by decide, rfl, by decide⟩

/-- C7 amended: `BotConfig` defines both budgets (2000 for analysis, 1500 for
normal chat), but every generation call `handle_chat` makes uses
`NORMAL_CHAT_MAX_TOKENS = 1500`, regardless of how the message would be
classified. -/
theorem C7_uniform_budget (provider : Nat → GptParams → ProviderResult)
    (author_id today content : String) (s : Store)
    (acts : List BotAction) (s' : Store)
    (hres : handle_chat provider author_id today content s = Except.ok (acts, s')) :
    BotConfig.REGULATION_ANALYSIS_MAX_TOKENS = 2000 ∧
    BotConfig.NORMAL_CHAT_MAX_TOKENS = 1500 ∧
    ∀ sp um mt, BotAction.genCall sp um mt ∈ acts →
      mt = BotConfig.NORMAL_CHAT_MAX_TOKENS := by
  refine ⟨rfl, rfl, ?_⟩
  intro sp um mt hmem
  simp only [handle_chat] at hres
  split at hres
  · injection hres with h
    injection h with ha hs
    subst ha
    simp at hmem
  · split at hres
    · injection hres with h
      injection h with ha hs
      subst ha
      rw [List.mem_singleton] at hmem
      exact absurd hmem (by simp)
    · split at hres
      · exact absurd hres (by simp)
      · injection hres with h
        injection h with ha hs
        subst ha
        rcases List.mem_cons.mp hmem with h1 | h2
        · injection h1 with e1 e2 e3
        · rw [List.mem_singleton] at h2
          exact absurd h2 (by simp)

/-- C7 witness: the uniform budget at a concrete accepted message. -/
theorem C7_uniform_budget_witness :
    BotConfig.REGULATION_ANALYSIS_MAX_TOKENS = 2000 ∧
    BotConfig.NORMAL_CHAT_MAX_TOKENS = 1500 ∧
    ∀ sp um mt, BotAction.genCall sp um mt ∈
        [BotAction.genCall akanePrompt "hello" 1500, BotAction.reply "ok!"] →
      mt = BotConfig.NORMAL_CHAT_MAX_TOKENS :=
  C7_uniform_budget provOkShort "u" "2025-06-01" "hello" []
    [BotAction.genCall akanePrompt "hello" 1500, BotAction.reply "ok!"]
    [⟨"u", "2025-06-01", 1⟩] rfl

/-- A generated response one character over the 1900-character threshold. -/
def longText : String := String.mk (List.replicate 1901 'a')

/-- A provider that always returns `longText`. -/
def provOkLong : Nat → GptParams → ProviderResult :=
  fun _ _ => ProviderResult.ok longText

set_option maxRecDepth 8192 in
/-- C8: a response of at most 1900 characters is sent as a plain reply, but on
a response of 1901 characters the file-attachment branch evaluates
`io.BytesIO` and the module never imports `io`, so `handle_chat` raises
`NameError('io')` instead of attaching the file the source intends to build. -/
theorem C8_long_response_crash :
    longText.length = 1901 ∧
    handle_chat provOkLong "u" "2025-06-01" "hello" [] =
      Except.error (PyError.nameError "io") ∧
    handle_chat provOkShort "u" "2025-06-01" "hi" [] =
      Except.ok ([BotAction.genCall akanePrompt "hi" 1500, BotAction.reply "ok!"],
        [⟨"u", "2025-06-01", 1⟩]) := by
  refine ⟨?_, ?_, rfl⟩
  · show (List.replicate 1901 'a').length = 1901
    simp
  · have hresp : call_gpt provOkLong akanePrompt "hello" BotConfig.NORMAL_CHAT_MAX_TOKENS =
        longText := rfl
    have hc : stripContent "hello" = "hello" := by decide
    have hq : check_usage [] "u" "2025-06-01" = (true, [⟨"u", "2025-06-01", 1⟩]) := by decide
    simp only [handle_chat, hc, hq, hresp]
    rw [if_neg (by decide), if_neg (by decide), if_pos (by
      show 1900 < (List.replicate 1901 'a').length
      simp)]

set_option maxRecDepth 8192 in
/-- C9 counterexample: an exception raised during delivery formatting is not
caught at the responder boundary — on a 1901-character generated response the
`NameError` from the unimported `io` module propagates out of `handle_chat`
instead of being converted to an apology message. -/
theorem C9_exception_escapes_counterexample :
    handle_chat provOkLong "bob" "2025-06-02" "hi there" [] =
      Except.error (PyError.nameError "io") := by
  have hresp : call_gpt provOkLong akanePrompt "hi there" BotConfig.NORMAL_CHAT_MAX_TOKENS =
      longText := rfl
  have hc : stripContent "hi there" = "hi there" := by decide
  have hq : check_usage [] "bob" "2025-06-02" = (true, [⟨"bob", "2025-06-02", 1⟩]) := by decide
  simp only [handle_chat, hc, hq, hresp]
  rw [if_neg (by decide), if_neg (by decide), if_pos (by
    show 1900 < (List.replicate 1901 'a').length
    simp)]

/-- C9 amended: only the generation-provider exception is caught (inside
`call_gpt`, where it becomes the fixed apology string, which `handle_chat`
then delivers normally); `handle_chat` itself has no exception boundary, so
the `NameError` raised on responses over 1900 characters propagates out. -/
theorem C9_gen_exception_contained (provider : Nat → GptParams → ProviderResult)
    (author_id today content : String) (s : Store)
    (hc : stripContent content ≠ "")
    (hq : (check_usage s author_id today).1 = true)
    (hexn : ∀ params, provider 0 params = ProviderResult.exn) :
    handle_chat provider author_id today content s =
      Except.ok ([BotAction.genCall akanePrompt (stripContent content)
          BotConfig.NORMAL_CHAT_MAX_TOKENS,
        BotAction.reply "APIエラーが発生しました。"],
        (check_usage s author_id today).2) := by
  have hresp : call_gpt provider akanePrompt (stripContent content)
      BotConfig.NORMAL_CHAT_MAX_TOKENS = "APIエラーが発生しました。" := by
    simp only [call_gpt]
    rw [hexn]
  simp only [handle_chat, hresp]
  rw [if_neg hc, if_neg (by simp [hq]), if_neg (by decide)]

/-- C9 witness: a provider that always raises, at a concrete message. -/
theorem C9_gen_exception_contained_witness :
    handle_chat (fun _ _ => ProviderResult.exn) "u" "2025-06-03" "hello" [] =
      Except.ok ([BotAction.genCall akanePrompt (stripContent "hello")
          BotConfig.NORMAL_CHAT_MAX_TOKENS,
        BotAction.reply "APIエラーが発生しました。"],
        (check_usage [] "u" "2025-06-03").2) :=
  C9_gen_exception_contained (fun _ _ => ProviderResult.exn) "u" "2025-06-03" "hello" []
    (by decide) (by decide) (fun _ => rfl)
